import Mathlib

/-!
Shallow embedding of the authentication and credential subsystem of the
goldenpath-api repository (src/api/models.py, src/api/repositories.py,
src/api/auth.py, src/api/routers/users.py), together with proofs settling
the specification claims about it.

Conventions of the embedding:
* timestamps are integers (seconds since the epoch, UTC); `timedelta(days=d)`
  is `d * 86400`;
* the relational tables are lists of rows in insertion order; a SQL `UPDATE ...
  WHERE p` is a `List.map` guarded by `p`, `INSERT` is an append, and a
  `SELECT ... WHERE p` Scalar lookup is `List.find?`/`List.filter`;
* the bcrypt library is external to the repository, so its digests are opaque
  values: a well-formed digest remembers the salt and the hashed secret, and a
  malformed digest is an arbitrary blob on which `checkpw` raises (the real
  library raises ValueError on an invalid salt); `hashpw` always produces a
  well-formed digest;
* Python exceptions are `Except` values; FastAPI `HTTPException` carries a
  status code and a detail string.
-/

/-- Timestamps: seconds since the epoch (UTC). -/
abbrev Timestamp := Int

/-- Model of a bcrypt digest.  The repository code only ever stores digests and
passes them back to `bcrypt.checkpw`, so the digest is opaque to it; a
well-formed digest is the pair (salt, hashed secret), and `malformed` stands
for any blob the bcrypt library cannot parse. -/
inductive Digest where
  | wellFormed (salt : Nat) (secret : String)
  | malformed (raw : String)
deriving DecidableEq, Repr

/-- The error bcrypt raises on a digest it cannot parse (Python: ValueError). -/
inductive HashError where
  | invalidSalt
deriving DecidableEq, Repr

/-- Model of `bcrypt.hashpw(secret, gensalt())`: records the salt and secret. -/
def bcrypt.hashpw (secret : String) (salt : Nat) : Digest :=
  Digest.wellFormed salt secret

/-- Model of `bcrypt.checkpw(secret, digest)`: compares against the hashed
secret for a well-formed digest, raises for a malformed one. -/
def bcrypt.checkpw (secret : String) (digest : Digest) : Except HashError Bool :=
  match digest with
  | Digest.wellFormed _ s => Except.ok (s == secret)
  | Digest.malformed _ => Except.error HashError.invalidSalt

/-- Row of the `api_keys` table (src/api/models.py, class APIKey).
`key_pfx` is the `key_prefix` column.  The server-defaulted `created_at`
column is a plain field here; `scopes` is the JSONB list. -/
structure APIKey where
  key_id : String
  user_id : String
  name : String
  key_hash : Digest
  key_pfx : String
  scopes : List String
  created_at : Timestamp
  last_used : Option Timestamp := none
  expires_at : Option Timestamp := none
  is_active : Bool := true
deriving DecidableEq, Repr

/-- The `api_keys` table: rows in insertion order. -/
abbrev APIKeyStore := List APIKey

/-- Row of the `users` table (src/api/models.py, class User).  `namespace_` is
the `namespace` column (renamed: `namespace` is a Lean keyword).  The
server-defaulted timestamp columns and `subscription_tier` are omitted — no
claim concerns them. -/
structure User where
  user_id : String
  email : String
  email_verified : Bool := false
  name : Option String := none
  namespace_ : String
  bio : Option String := none
  github_username : Option String := none
  auth_provider : String
deriving DecidableEq, Repr

/-- The `users` table: rows in insertion order. -/
abbrev UserStore := List User

/-! ### APIKeyRepository (src/api/repositories.py) -/

/-- Model of `APIKeyRepository.create`.  The three sources of randomness
(`secrets.token_urlsafe(32)` for the secret, `secrets.token_urlsafe(16)` for
the key id, and bcrypt's salt) are explicit parameters, as is the clock.
Python signature: `create(self, user_id, name, scopes=None, expires_days=90)`;
the optional parameters keep their Python defaults.  Returns
(plaintext api key, created record, new table state). -/
def APIKeyRepository.create (store : APIKeyStore) (now : Timestamp)
    (tokenUrlsafe32 tokenUrlsafe16 : String) (salt : Nat)
    (user_id : String) (name : String)
    (scopes : Option (List String) := none) (expires_days : Int := 90) :
    String × APIKey × APIKeyStore :=
  let api_key := "gp_live_" ++ tokenUrlsafe32
  let key_hash := bcrypt.hashpw api_key salt
  let key_pfx := (api_key.take 16) ++ "..."
  let scopes := scopes.getD ["read", "write"]
  let expires_at := now + expires_days * 86400
  let key_record : APIKey :=
    { key_id := "key_" ++ tokenUrlsafe16
      user_id := user_id
      name := name
      key_hash := key_hash
      key_pfx := key_pfx
      scopes := scopes
      created_at := now
      last_used := none
      expires_at := some expires_at
      is_active := true }
  (api_key, key_record, store ++ [key_record])

/-- The expiry test inside `verify_key`:
`key_record.expires_at and key_record.expires_at < now` (a datetime is always
truthy in Python, so this is "non-null and in the past"). -/
def APIKey.isExpired (k : APIKey) (now : Timestamp) : Bool :=
  match k.expires_at with
  | some t => decide (t < now)
  | none => false

/-- The `UPDATE api_keys SET last_used = now WHERE key_id = kid` statement
inside `verify_key`. -/
def APIKeyStore.setLastUsed (store : APIKeyStore) (kid : String)
    (now : Timestamp) : APIKeyStore :=
  store.map (fun k => if k.key_id == kid then { k with last_used := some now } else k)

/-- The `for key_record in keys` loop of `verify_key`, over the already
selected active rows.  A bcrypt error on any scanned digest propagates (the
Python code does not catch it). -/
def APIKeyRepository.verifyScan (store : APIKeyStore) (api_key : String)
    (now : Timestamp) : List APIKey → Except HashError (Option APIKey × APIKeyStore)
  | [] => Except.ok (none, store)
  | key_record :: rest =>
    match bcrypt.checkpw api_key key_record.key_hash with
    | Except.error e => Except.error e
    | Except.ok false => APIKeyRepository.verifyScan store api_key now rest
    | Except.ok true =>
      if key_record.isExpired now then
        Except.ok (none, store)
      else
        Except.ok (some { key_record with last_used := some now },
          store.setLastUsed key_record.key_id now)

/-- Model of `APIKeyRepository.verify_key`: select all active rows, scan each one's
hash; on a fresh match, write `last_used` and return the refreshed record; on
an expired match, return None without writing.  Returns (result, new table
state), or the uncaught bcrypt error. -/
def APIKeyRepository.verify_key (store : APIKeyStore) (api_key : String)
    (now : Timestamp) : Except HashError (Option APIKey × APIKeyStore) :=
  APIKeyRepository.verifyScan store api_key now (store.filter (fun k => k.is_active))

/-- Model of `APIKeyRepository.deactivate`: `UPDATE api_keys SET is_active = false
WHERE key_id = kid AND user_id = uid`; returns whether any row was affected,
with the new table state. -/
def APIKeyRepository.deactivate (store : APIKeyStore) (key_id user_id : String) :
    Bool × APIKeyStore :=
  (store.any (fun k => k.key_id == key_id && k.user_id == user_id),
   store.map (fun k =>
     if k.key_id == key_id && k.user_id == user_id then { k with is_active := false } else k))

/-! ### UserRepository (src/api/repositories.py) -/

/-- Model of `UserRepository.get_by_id`: `SELECT * FROM users WHERE user_id = uid`. -/
def UserRepository.get_by_id (store : UserStore) (user_id : String) : Option User :=
  store.find? (fun u => u.user_id == user_id)

/-- Model of `UserRepository.get_by_email`: `SELECT * FROM users WHERE email = e`. -/
def UserRepository.get_by_email (store : UserStore) (email : String) : Option User :=
  store.find? (fun u => u.email == email)

/-- Model of `UserRepository.get_by_namespace`: `SELECT * FROM users WHERE namespace = n`. -/
def UserRepository.get_by_namespace (store : UserStore) (ns : String) : Option User :=
  store.find? (fun u => u.namespace_ == ns)

/-- Model of `UserRepository.create`: insert a new row and return it.  Python optional
parameters keep their defaults (`email_verified=False`, `name=None`, ...). -/
def UserRepository.create (store : UserStore)
    (user_id email namespace_ auth_provider : String)
    (email_verified : Bool := false) (name : Option String := none)
    (bio : Option String := none) (github_username : Option String := none) :
    User × UserStore :=
  let user : User :=
    { user_id := user_id
      email := email
      email_verified := email_verified
      name := name
      namespace_ := namespace_
      bio := bio
      github_username := github_username
      auth_provider := auth_provider }
  (user, store ++ [user])

/-- Model of `UserRepository.get_by_cognito_username`: in this model the Cognito
username is stored as `user_id`. -/
def UserRepository.get_by_cognito_username (store : UserStore)
    (cognito_username : String) : Option User :=
  UserRepository.get_by_id store cognito_username

/-- Model of `UserRepository.create_from_cognito`.  If a user with this email already
exists, link: `UPDATE users SET user_id = cognito_username,
email_verified = true WHERE email = email`, then re-read by id.  Otherwise
create a new row with `auth_provider="cognito"` and `email_verified=True`.
Returns (resulting user if found, new table state); the link branch ends in a
fallible lookup, hence the Option. -/
def UserRepository.create_from_cognito (store : UserStore)
    (cognito_username email namespace_ : String) : Option User × UserStore :=
  match UserRepository.get_by_email store email with
  | some _ =>
    let store' := store.map (fun u =>
      if u.email == email then { u with user_id := cognito_username, email_verified := true } else u)
    (UserRepository.get_by_id store' cognito_username, store')
  | none =>
    let created := UserRepository.create store cognito_username email namespace_ "cognito" true
    (some created.1, created.2)

/-! ### Namespace generation (src/api/routers/users.py) -/

/-- Python `s.replace(c, "")` for a single-character pattern: remove every
occurrence of `c`.  (Char-level, because Lean's `String.replace` is
well-founded-recursive and does not reduce in the kernel.) -/
def pyRemoveAll (c : Char) (s : List Char) : List Char :=
  s.filter (fun x => x != c)

/-- Python `s.lower()` (ASCII, which is all the code relies on). -/
def pyLower (s : String) : String :=
  String.mk (s.toList.map Char.toLower)

/-- Model of `generate_namespace_from_email`: take the local part of the email
(`email.split("@")[0]`, i.e. everything before the first `@`), remove every
`.`, `_` and `-`, lowercase, and add an `@` in front. -/
def generate_namespace_from_email (email : String) : String :=
  let username := email.toList.takeWhile (fun c => c != '@')
  let username := pyRemoveAll '.' username
  let username := pyRemoveAll '_' username
  let username := pyRemoveAll '-' username
  let username := username.map Char.toLower
  "@" ++ String.mk username

/-- Modelled from the spec (§4.5): the spec says the namespace is generated by
stripping ALL non-alphanumeric characters from the local part and lowercasing.
This definition follows the spec's words, to be compared with
`generate_namespace_from_email`, which the code implements. -/
def spec_namespace_from_email (email : String) : String :=
  let username := email.toList.takeWhile (fun c => c != '@')
  let username := (username.filter (fun c => c.isAlphanum)).map Char.toLower
  "@" ++ String.mk username

/-- The `while await user_repo.get_by_namespace(namespace): namespace =
f"{base_namespace}{counter}"; counter += 1` loop of `register_user`, fuelled.
The Python loop terminates because the table is finite; `fuel = |users| + 1`
candidates suffice by pigeonhole (the fuel-exhausted branch returns the last
candidate and is unreachable with that fuel). -/
def ensureUniqueAux (users : UserStore) (base : String) :
    Nat → Nat → String
  | counter, 0 => base ++ toString counter
  | counter, fuel + 1 =>
    let cand := base ++ toString counter
    if (UserRepository.get_by_namespace users cand).isSome then
      ensureUniqueAux users base (counter + 1) fuel
    else cand

/-- Lines 67–75 of `register_user`: start from the generated base namespace
and scan numeric suffixes upward from 1 until an unused namespace is found. -/
def registerAssignNamespace (users : UserStore) (email : String) : String :=
  let base := generate_namespace_from_email email
  if (UserRepository.get_by_namespace users base).isSome then
    ensureUniqueAux users base 1 (users.length + 1)
  else base

/-! ### JWT authentication (src/api/auth.py) -/

/-- One entry of the JWKS document: the repository code only reads `kid`. -/
structure JwkKey where
  kid : String
deriving DecidableEq, Repr

/-- The JSON body of the JWKS discovery endpoint (`{"keys": [...]}`). -/
structure JWKS where
  keys : List JwkKey
deriving DecidableEq, Repr

/-- Outcome of the `requests.get(COGNITO_JWKS_URL, timeout=5)` call, an input
of the model (the network is external). -/
inductive FetchOutcome where
  | success (body : JWKS)
  | failure (msg : String)
deriving DecidableEq, Repr

/-- A FastAPI `HTTPException`'s visible data. -/
structure HTTPError where
  status : Nat
  detail : String
deriving DecidableEq, Repr

/-- The Python exceptions that can escape the body of the `try` block in
`get_current_user_from_jwt`: a `jose.JWTError`, a FastAPI `HTTPException`
raised inside the block, a persistence-layer error, or anything else. -/
inductive PyExc where
  | jwtError (msg : String)
  | httpExc (status : Nat) (detail : String)
  | dbError (msg : String)
  | otherError (msg : String)
deriving DecidableEq, Repr

/-- Python's `str(e)` as the `f"...: {str(e)}"` interpolations see it.  An
`HTTPException`'s `args` are `(status_code, detail)`. -/
def PyExc.str : PyExc → String
  | PyExc.jwtError m => m
  | PyExc.httpExc s d => "(" ++ toString s ++ ", " ++ d ++ ")"
  | PyExc.dbError m => m
  | PyExc.otherError m => m

/-- Model of `get_cognito_public_keys`: return the cached key set if present; otherwise
fetch, cache the body on success, and raise a 503 `HTTPException` on failure
(the failure is not cached).  Returns (result, new cache, fetches issued). -/
def get_cognito_public_keys (cache : Option JWKS) (net : FetchOutcome) :
    Except PyExc JWKS × Option JWKS × Nat :=
  match cache with
  | some ks => (Except.ok ks, some ks, 0)
  | none =>
    match net with
    | FetchOutcome.success body => (Except.ok body, some body, 1)
    | FetchOutcome.failure m =>
      (Except.error (PyExc.httpExc 503 ("Failed to fetch Cognito public keys: " ++ m)),
       none, 1)

/-- The identity claims `get_current_user_from_jwt` reads from a decoded
token: `cognito:username` and `email`, each possibly absent. -/
structure CognitoClaims where
  cognito_username : Option String
  email : Option String
deriving DecidableEq, Repr

/-- The per-request inputs of `get_current_user_from_jwt` that come from the
token and the jose library (external): the raw Authorization header, the
outcome of `jose_jwt.get_unverified_header` (error = `JWTError`, ok = the
optional `kid` header), and the outcome of `jose_jwt.decode` (error =
`JWTError`, e.g. bad signature / issuer / audience / expiry). -/
structure JwtRequest where
  authorization : Option String
  headerParse : Except String (Option String)
  decodeResult : Except String CognitoClaims
deriving Repr

/-- The process-wide and database state `get_current_user_from_jwt` runs
against.  `dbFail` injects a persistence-layer failure: when `some msg`, any
database call raises. -/
structure JwtWorld where
  cache : Option JWKS
  net : FetchOutcome
  users : UserStore
  dbFail : Option String
deriving DecidableEq, Repr

/-- Result of one `get_current_user_from_jwt` call: the HTTP-level outcome,
the key cache and users table afterwards, and how many network fetches of the
JWKS document were issued. -/
structure JwtResult where
  result : Except HTTPError User
  cache : Option JWKS
  users : UserStore
  fetchCount : Nat
deriving Repr

/-- Python `email or f"{cognito_username}@unknown.local"`: an absent or empty
(falsy) email claim is replaced by the synthesized address. -/
def emailOrSynthesized (email : Option String) (cognito_username : String) : String :=
  match email with
  | some e => if e == "" then cognito_username ++ "@unknown.local" else e
  | none => cognito_username ++ "@unknown.local"

/-- The body of the `try` block of `get_current_user_from_jwt`, given the
already-extracted bearer token's oracles: fetch the key set, read the token
header's `kid`, look it up in the key set (no invalidation or refetch on a
miss), decode, read the claims, then look up or auto-provision the user.
Returns (outcome, cache afterwards, users afterwards, fetch count). -/
def jwtTryBody (w : JwtWorld) (req : JwtRequest) :
    Except PyExc User × Option JWKS × UserStore × Nat :=
  match get_cognito_public_keys w.cache w.net with
  | (Except.error e, cache', n) => (Except.error e, cache', w.users, n)
  | (Except.ok keys, cache', n) =>
    match req.headerParse with
    | Except.error m => (Except.error (PyExc.jwtError m), cache', w.users, n)
    | Except.ok none =>
      (Except.error (PyExc.httpExc 401 "Token missing 'kid' header"), cache', w.users, n)
    | Except.ok (some kid) =>
      match keys.keys.find? (fun k => k.kid == kid) with
      | none =>
        (Except.error (PyExc.httpExc 401 "Public key not found for token"), cache', w.users, n)
      | some _ =>
        match req.decodeResult with
        | Except.error m => (Except.error (PyExc.jwtError m), cache', w.users, n)
        | Except.ok claims =>
          match claims.cognito_username with
          | none =>
            (Except.error (PyExc.httpExc 401 "Token missing cognito:username"), cache', w.users, n)
          | some uname =>
            if uname == "" then
              (Except.error (PyExc.httpExc 401 "Token missing cognito:username"), cache', w.users, n)
            else
              match w.dbFail with
              | some m => (Except.error (PyExc.dbError m), cache', w.users, n)
              | none =>
                match UserRepository.get_by_cognito_username w.users uname with
                | some user => (Except.ok user, cache', w.users, n)
                | none =>
                  let email := emailOrSynthesized claims.email uname
                  match UserRepository.create_from_cognito w.users uname email ("@" ++ uname) with
                  | (some user, users') => (Except.ok user, cache', users', n)
                  | (none, users') =>
                    (Except.error (PyExc.otherError "user is None"), cache', users', n)

/-- The `except` chain of `get_current_user_from_jwt`: a `JWTError` becomes
401 "Invalid token: ...", and EVERY other exception — including
`HTTPException`s raised inside the `try` block (such as the 503 from the key
fetch) and persistence errors — is caught by the bare `except Exception` and
becomes 401 "Authentication failed: ...". -/
def jwtExceptChain : PyExc → HTTPError
  | PyExc.jwtError m => { status := 401, detail := "Invalid token: " ++ m }
  | e => { status := 401, detail := "Authentication failed: " ++ e.str }

/-- Helper for `pySplitWs`: accumulate the current word (reversed) while
walking the characters. -/
def pySplitWsAux : List Char → List Char → List String
  | [], acc => if acc.isEmpty then [] else [String.mk acc.reverse]
  | c :: rest, acc =>
    if c == ' ' then
      if acc.isEmpty then pySplitWsAux rest []
      else String.mk acc.reverse :: pySplitWsAux rest []
    else pySplitWsAux rest (c :: acc)

/-- Python `authorization.split()`: split on whitespace runs (here spaces),
dropping empty parts. -/
def pySplitWs (s : String) : List String :=
  pySplitWsAux s.toList []

/-- Model of `get_current_user_from_jwt`: parse the `Bearer` header (failures here are
raised OUTSIDE the try block and keep their own status), then run the `try`
body and apply the `except` chain. -/
def get_current_user_from_jwt (w : JwtWorld) (req : JwtRequest) : JwtResult :=
  match req.authorization with
  | none =>
    { result := Except.error { status := 401, detail := "Missing Authorization header" }
      cache := w.cache, users := w.users, fetchCount := 0 }
  | some auth =>
    match pySplitWs auth with
    | [scheme, _token] =>
      if pyLower scheme == "bearer" then
        match jwtTryBody w req with
        | (Except.ok user, cache', users', n) =>
          { result := Except.ok user, cache := cache', users := users', fetchCount := n }
        | (Except.error e, cache', users', n) =>
          { result := Except.error (jwtExceptChain e), cache := cache', users := users',
            fetchCount := n }
      else
        { result := Except.error
            { status := 401
              detail := "Invalid Authorization header format. Expected: Bearer <jwt_token>" }
          cache := w.cache, users := w.users, fetchCount := 0 }
    | _ =>
      { result := Except.error
          { status := 401
            detail := "Invalid Authorization header format. Expected: Bearer <jwt_token>" }
        cache := w.cache, users := w.users, fetchCount := 0 }

/-! ### Helper lemmas about the verification scan -/

/-- If every key in the scanned list either cleanly misses or matches but is
expired, the scan returns no record and leaves the table untouched. -/
theorem verifyScan_none_of_all_miss (store : APIKeyStore) (p : String)
    (now : Timestamp) (l : List APIKey)
    (h : ∀ k ∈ l,
      bcrypt.checkpw p k.key_hash = Except.ok false ∨
      (bcrypt.checkpw p k.key_hash = Except.ok true ∧ k.isExpired now = true)) :
    APIKeyRepository.verifyScan store p now l = Except.ok (none, store) := by
  induction l with
  | nil => rfl
  | cons k rest ih =>
    rcases h k (List.mem_cons_self _ _) with hf | ⟨ht, he⟩
    · simp only [APIKeyRepository.verifyScan, hf]
      exact ih (fun k' hk' => h k' (List.mem_cons_of_mem _ hk'))
    · simp only [APIKeyRepository.verifyScan, ht, he, if_true]

/-- A block of keys that all cleanly miss is skipped by the scan. -/
theorem verifyScan_append_misses (store : APIKeyStore) (p : String)
    (now : Timestamp) (l1 l2 : List APIKey)
    (h : ∀ k ∈ l1, bcrypt.checkpw p k.key_hash = Except.ok false) :
    APIKeyRepository.verifyScan store p now (l1 ++ l2) =
      APIKeyRepository.verifyScan store p now l2 := by
  induction l1 with
  | nil => rfl
  | cons k rest ih =>
    have hf := h k (List.mem_cons_self _ _)
    simp only [List.cons_append, APIKeyRepository.verifyScan, hf]
    exact ih (fun k' hk' => h k' (List.mem_cons_of_mem _ hk'))

/-- The scan never raises when every scanned digest is well-formed. -/
theorem verifyScan_ok_of_wellFormed (store : APIKeyStore) (p : String)
    (now : Timestamp) (l : List APIKey)
    (h : ∀ k ∈ l, ∃ s g, k.key_hash = Digest.wellFormed s g) :
    ∃ r, APIKeyRepository.verifyScan store p now l = Except.ok r := by
  induction l with
  | nil => exact ⟨(none, store), rfl⟩
  | cons k rest ih =>
    obtain ⟨s, g, hk⟩ := h k (List.mem_cons_self _ _)
    by_cases hgp : (g == p) = true
    · by_cases he : k.isExpired now = true
      · exact ⟨(none, store), by
          simp only [APIKeyRepository.verifyScan, hk, bcrypt.checkpw, hgp, he, if_true]⟩
      · refine ⟨(some { k with last_used := some now },
          store.setLastUsed k.key_id now), ?_⟩
        simp [APIKeyRepository.verifyScan, hk, bcrypt.checkpw, hgp, he]
    · have hgp' : (g == p) = false := by simpa using hgp
      have := ih (fun k' hk' => h k' (List.mem_cons_of_mem _ hk'))
      simpa only [APIKeyRepository.verifyScan, hk, bcrypt.checkpw, hgp'] using this

/-! ### Claims -/

/-- C2: for every stored API key whose `expires_at` is in the past, `verify`
on the matching plaintext returns no record and the table — in particular
every key's `last_used` — is left unchanged: the expiry check happens before
the usage-metadata write.  The hypothesis says every active key either cleanly
misses the presented plaintext (the digest is well-formed and does not match)
or matches but has expired. -/
theorem c2_expired_key_verify_none (store : APIKeyStore) (p : String)
    (now : Timestamp)
    (h : ∀ k ∈ store, k.is_active = true →
      bcrypt.checkpw p k.key_hash = Except.ok false ∨
      (bcrypt.checkpw p k.key_hash = Except.ok true ∧ k.isExpired now = true)) :
    APIKeyRepository.verify_key store p now = Except.ok (none, store) := by
  unfold APIKeyRepository.verify_key
  refine verifyScan_none_of_all_miss store p now _ (fun k hk => ?_)
  have hmem := List.mem_filter.mp hk
  exact h k hmem.1 (by simpa using hmem.2)

/-- Witness for C2: a single active key whose `expires_at = 10` lies before
`now = 50`; verification of its own plaintext returns no record and leaves
the table (hence its `last_used = none`) unchanged. -/
theorem c2_expired_key_verify_none_witness :
    APIKeyRepository.verify_key
      [{ key_id := "k1", user_id := "u1", name := "n",
         key_hash := Digest.wellFormed 7 "gp_live_x", key_pfx := "gp",
         scopes := ["read"], created_at := 0, last_used := none,
         expires_at := some 10, is_active := true }] "gp_live_x" 50 =
      Except.ok (none,
        [{ key_id := "k1", user_id := "u1", name := "n",
           key_hash := Digest.wellFormed 7 "gp_live_x", key_pfx := "gp",
           scopes := ["read"], created_at := 0, last_used := none,
           expires_at := some 10, is_active := true }]) :=
  c2_expired_key_verify_none _ _ _ (by
    intro k hk hact
    rw [List.mem_singleton] at hk
    subst hk
    exact Or.inr ⟨rfl, rfl⟩)

/-- C4 counterexample: calling `create` without supplying a ttl does NOT
yield a non-expiring key.  With `now = 1000` and the Python default
`expires_days = 90`, the created record's `expires_at` is
`some (1000 + 90·86400) = some 7777000`, not `none`. -/
theorem c4_counterexample :
    (APIKeyRepository.create [] 1000 "T32" "T16" 5 "u1" "mykey").2.1.expires_at =
      some 7777000 ∧
    (APIKeyRepository.create [] 1000 "T32" "T16" 5 "u1" "mykey").2.1.expires_at ≠
      none := by
  constructor
  · rfl
  · decide

/-- C4 amended: `create` always sets `expires_at = now + expires_days · 86400`
(one day = 86400 s); `expires_days` defaults to 90 when the caller supplies no
ttl, so `expires_at` is never null on a newly issued key. -/
theorem c4_expires_always_set (store : APIKeyStore) (now : Timestamp)
    (t32 t16 : String) (salt : Nat) (uid nm : String)
    (scopes : Option (List String)) (days : Int) :
    (APIKeyRepository.create store now t32 t16 salt uid nm scopes days).2.1.expires_at =
      some (now + days * 86400) := rfl

/-- C9: `deactivate` (the spec's `revoke`) run with a key id that exists but
belongs to a different account returns false and leaves the whole table — in
particular the key's `active` flag and every other field — unchanged. -/
theorem c9_nonowner_revoke_noop (store : APIKeyStore) (kid uid : String)
    (_hexists : ∃ k ∈ store, k.key_id = kid)
    (hown : ∀ k ∈ store, k.key_id = kid → k.user_id ≠ uid) :
    APIKeyRepository.deactivate store kid uid = (false, store) := by
  have hpred : ∀ k ∈ store, (k.key_id == kid && k.user_id == uid) = false := by
    intro k hk
    by_cases hkid : k.key_id = kid
    · have := hown k hk hkid
      simp [hkid, this]
    · simp [hkid]
  unfold APIKeyRepository.deactivate
  refine Prod.ext ?_ ?_
  · simp only [List.any_eq_false]
    intro k hk
    simpa using hpred k hk
  · calc store.map (fun k =>
          if k.key_id == kid && k.user_id == uid then { k with is_active := false } else k)
        = store.map id := by
          refine List.map_congr_left (fun k hk => ?_)
          simp [hpred k hk]
      _ = store := List.map_id store

/-- Witness for C9: key `k1` exists and is owned by `u1`; `deactivate` called
by `u2` returns false and leaves the table unchanged. -/
theorem c9_nonowner_revoke_noop_witness :
    APIKeyRepository.deactivate
      [{ key_id := "k1", user_id := "u1", name := "n",
         key_hash := Digest.wellFormed 7 "gp_live_x", key_pfx := "gp",
         scopes := ["read"], created_at := 0, last_used := none,
         expires_at := some 100, is_active := true }] "k1" "u2" =
      (false,
        [{ key_id := "k1", user_id := "u1", name := "n",
           key_hash := Digest.wellFormed 7 "gp_live_x", key_pfx := "gp",
           scopes := ["read"], created_at := 0, last_used := none,
           expires_at := some 100, is_active := true }]) :=
  c9_nonowner_revoke_noop _ _ _ (by decide) (by decide)

/-- C6: for every account and plaintext secret returned by `create` (the
spec's `issue`), calling `verify_key` with that plaintext immediately
afterwards — at any `now'` not past the key's expiry, with no intervening
revocation — returns the record created, refreshed with `last_used = now'`,
and that record is `active = true`.  The first hypothesis says the fresh
high-entropy plaintext matches none of the previously stored digests. -/
theorem c6_issue_then_verify (store : APIKeyStore) (now now' : Timestamp)
    (t32 t16 : String) (salt : Nat) (uid nm : String)
    (scopes : Option (List String)) (days : Int)
    (hmiss : ∀ k ∈ store,
      bcrypt.checkpw ("gp_live_" ++ t32) k.key_hash = Except.ok false)
    (hfresh : ¬ now + days * 86400 < now') :
    APIKeyRepository.verify_key
        (APIKeyRepository.create store now t32 t16 salt uid nm scopes days).2.2
        (APIKeyRepository.create store now t32 t16 salt uid nm scopes days).1
        now' =
      Except.ok
        (some { (APIKeyRepository.create store now t32 t16 salt uid nm scopes days).2.1 with
                  last_used := some now' },
         ((APIKeyRepository.create store now t32 t16 salt uid nm scopes days).2.2).setLastUsed
           (APIKeyRepository.create store now t32 t16 salt uid nm scopes days).2.1.key_id
           now') ∧
    (APIKeyRepository.create store now t32 t16 salt uid nm scopes days).2.1.is_active = true := by
  refine ⟨?_, rfl⟩
  unfold APIKeyRepository.verify_key APIKeyRepository.create
  simp only
  rw [List.filter_append]
  rw [verifyScan_append_misses _ _ _ _ _
    (fun k hk => hmiss k (List.mem_of_mem_filter hk))]
  simp [APIKeyRepository.verifyScan, bcrypt.checkpw, bcrypt.hashpw, APIKey.isExpired, hfresh]

/-- Witness for C6: issuing a key at `now = 1000` on an empty table and
verifying the returned plaintext at `now' = 1001` returns the created record
(with `last_used = 1001`) and it is active. -/
theorem c6_issue_then_verify_witness :
    APIKeyRepository.verify_key
        (APIKeyRepository.create [] 1000 "T32" "T16" 5 "u1" "mykey" none 90).2.2
        (APIKeyRepository.create [] 1000 "T32" "T16" 5 "u1" "mykey" none 90).1
        1001 =
      Except.ok
        (some { (APIKeyRepository.create [] 1000 "T32" "T16" 5 "u1" "mykey" none 90).2.1 with
                  last_used := some 1001 },
         ((APIKeyRepository.create [] 1000 "T32" "T16" 5 "u1" "mykey" none 90).2.2).setLastUsed
           (APIKeyRepository.create [] 1000 "T32" "T16" 5 "u1" "mykey" none 90).2.1.key_id
           1001) ∧
    (APIKeyRepository.create [] 1000 "T32" "T16" 5 "u1" "mykey" none 90).2.1.is_active = true :=
  c6_issue_then_verify [] 1000 1001 "T32" "T16" 5 "u1" "mykey" none 90
    (by intro k hk; cases hk) (by decide)

/-- C7 counterexample: the code does NOT treat a hashing-library error as "no
match" — `verify_key` on a table holding one active key whose stored digest is
malformed propagates bcrypt's error (Python: `bcrypt.checkpw` raises
ValueError, uncaught in `verify_key`) instead of returning no-match. -/
theorem c7_counterexample :
    APIKeyRepository.verify_key
      [{ key_id := "k1", user_id := "u1", name := "n",
         key_hash := Digest.malformed "not-a-bcrypt-hash", key_pfx := "gp",
         scopes := ["read"], created_at := 0, last_used := none,
         expires_at := none, is_active := true }] "gp_live_x" 50 =
      Except.error HashError.invalidSalt := rfl

/-- C7 amended: `verify_key` never raises as long as every active stored
digest is well-formed (the situation the repository itself produces, since
every stored digest comes from `bcrypt.hashpw`); an unknown or non-matching
secret then yields "no match" rather than an exception.  A malformed stored
digest, however, makes the bcrypt error propagate past `verify_key`
(see the counterexample). -/
theorem c7_wellformed_never_raises (store : APIKeyStore) (p : String)
    (now : Timestamp)
    (h : ∀ k ∈ store, k.is_active = true → ∃ s g, k.key_hash = Digest.wellFormed s g) :
    ∃ r, APIKeyRepository.verify_key store p now = Except.ok r := by
  unfold APIKeyRepository.verify_key
  refine verifyScan_ok_of_wellFormed store p now _ (fun k hk => ?_)
  have hmem := List.mem_filter.mp hk
  exact h k hmem.1 (by simpa using hmem.2)

/-- Witness for C7 amended: one active well-formed key, a non-matching
secret: `verify_key` returns an `ok` outcome (does not raise). -/
theorem c7_wellformed_never_raises_witness :
    ∃ r, APIKeyRepository.verify_key
      [{ key_id := "k1", user_id := "u1", name := "n",
         key_hash := Digest.wellFormed 7 "gp_live_x", key_pfx := "gp",
         scopes := ["read"], created_at := 0, last_used := none,
         expires_at := none, is_active := true }] "gp_live_other" 50 = Except.ok r :=
  c7_wellformed_never_raises _ _ _ (by
    intro k hk hact
    rw [List.mem_singleton] at hk
    subst hk
    exact ⟨7, "gp_live_x", rfl⟩)

/-- C8 counterexample: the code does NOT strip every non-alphanumeric
character from the email's local part — it removes only `.`, `_` and `-`.
For `a+b@x.com` the code produces `@a+b` (keeping the `+`), while the claim's
strip-non-alphanumerics rule would produce `@ab`. -/
theorem c8_counterexample :
    generate_namespace_from_email "a+b@x.com" = "@a+b" ∧
    spec_namespace_from_email "a+b@x.com" = "@ab" ∧
    generate_namespace_from_email "a+b@x.com" ≠
      spec_namespace_from_email "a+b@x.com" := by
  refine ⟨rfl, rfl, ?_⟩
  decide

/-- C8 amended: the namespace is generated from the local part of the email by
removing only the characters `.`, `_` and `-` and lowercasing (every other
character, alphanumeric or not, is kept); a collision with an existing
namespace is disambiguated by a numeric suffix scanned upward from 1, so
registering `alice@x.com` and then `alice@y.com` yields `@alice` and then
`@alice1`. -/
theorem c8_namespace_generation :
    registerAssignNamespace [] "alice@x.com" = "@alice" ∧
    registerAssignNamespace
      [{ user_id := "u1", email := "alice@x.com", email_verified := true,
         name := none, namespace_ := registerAssignNamespace [] "alice@x.com",
         bio := none, github_username := none, auth_provider := "email" }]
      "alice@y.com" = "@alice1" ∧
    generate_namespace_from_email "a+b@x.com" = "@a+b" ∧
    generate_namespace_from_email "A.l-i_ce@x.com" = "@alice" :=
  ⟨rfl, rfl, rfl, rfl⟩

/-- C1 amended: a persistence-layer failure during account lookup or
first-login provisioning does NOT surface as a service-unavailable condition —
the bare `except Exception` at the end of `get_current_user_from_jwt` catches
it and converts it into a 401 "Authentication failed" rejection, the same
status an invalid credential produces.  The hypotheses put the request on the
happy path (well-formed Bearer header, warm key cache containing the token's
`kid`, token decoding succeeds) up to the database step, which raises. -/
theorem c1_db_failure_maps_to_401 (w : JwtWorld) (req : JwtRequest)
    (auth tok kid uname m : String) (ks : JWKS) (key : JwkKey)
    (claims : CognitoClaims)
    (hauth : req.authorization = some auth)
    (hsplit : pySplitWs auth = ["Bearer", tok])
    (hcache : w.cache = some ks)
    (hhdr : req.headerParse = Except.ok (some kid))
    (hfind : ks.keys.find? (fun k => k.kid == kid) = some key)
    (hdec : req.decodeResult = Except.ok claims)
    (huname : claims.cognito_username = some uname)
    (hne : uname ≠ "")
    (hdb : w.dbFail = some m) :
    (get_current_user_from_jwt w req).result =
      Except.error { status := 401, detail := "Authentication failed: " ++ m } := by
  have hbear : (pyLower "Bearer" == "bearer") = true := rfl
  simp only [get_current_user_from_jwt, jwtTryBody, get_cognito_public_keys,
    hauth, hsplit, hcache, hhdr, hfind, hdec, huname, hdb, hbear, if_true,
    beq_iff_eq, hne, if_false, jwtExceptChain, PyExc.str]

/-- C1 counterexample: the claim as stated is false on the code.  A concrete
request with a valid token and a warm key cache, whose only failure is an
injected database error ("connection refused") during user lookup, ends in a
401 authentication rejection — not in a distinct service-unavailable (503)
condition. -/
theorem c1_counterexample :
    (get_current_user_from_jwt
      { cache := some { keys := [{ kid := "kidA" }] },
        net := FetchOutcome.failure "net down",
        users := [],
        dbFail := some "connection refused" }
      { authorization := some "Bearer tok",
        headerParse := Except.ok (some "kidA"),
        decodeResult := Except.ok { cognito_username := some "u42", email := none } }).result =
      Except.error { status := 401, detail := "Authentication failed: connection refused" } :=
  rfl

/-- Witness for C1 amended: the general theorem applied to the concrete
request of the counterexample scenario. -/
theorem c1_db_failure_maps_to_401_witness :
    (get_current_user_from_jwt
      { cache := some { keys := [{ kid := "kidA" }] },
        net := FetchOutcome.failure "net down",
        users := [],
        dbFail := some "connection refused" }
      { authorization := some "Bearer tok",
        headerParse := Except.ok (some "kidA"),
        decodeResult := Except.ok { cognito_username := some "u42", email := none } }).result =
      Except.error
        { status := 401, detail := "Authentication failed: " ++ "connection refused" } :=
  c1_db_failure_maps_to_401 _ _ "Bearer tok" "tok" "kidA" "u42" "connection refused"
    { keys := [{ kid := "kidA" }] } { kid := "kidA" }
    { cognito_username := some "u42", email := none }
    rfl rfl rfl rfl rfl rfl rfl (by decide) rfl

/-- C3 amended: when the token's `kid` is not found in the cached key set, NO
cache invalidation or refetch is attempted — the code rejects the token
immediately (`HTTPException` "Public key not found for token", re-wrapped by
the catch-all into a 401 "Authentication failed"), issuing zero network
fetches and leaving the cache and the users table unchanged. -/
theorem c3_unknown_kid_no_refetch (w : JwtWorld) (req : JwtRequest)
    (auth tok kid : String) (ks : JWKS)
    (hauth : req.authorization = some auth)
    (hsplit : pySplitWs auth = ["Bearer", tok])
    (hcache : w.cache = some ks)
    (hhdr : req.headerParse = Except.ok (some kid))
    (hfind : ks.keys.find? (fun k => k.kid == kid) = none) :
    (get_current_user_from_jwt w req).result =
      Except.error
        { status := 401
          detail := "Authentication failed: (401, Public key not found for token)" } ∧
    (get_current_user_from_jwt w req).fetchCount = 0 ∧
    (get_current_user_from_jwt w req).cache = some ks ∧
    (get_current_user_from_jwt w req).users = w.users := by
  have hbear : (pyLower "Bearer" == "bearer") = true := rfl
  refine ⟨?_, ?_, ?_, ?_⟩ <;>
    simp only [get_current_user_from_jwt, jwtTryBody, get_cognito_public_keys,
      hauth, hsplit, hcache, hhdr, hfind, hbear, if_true, jwtExceptChain,
      PyExc.str]
  all_goals rfl

/-- C3 counterexample: the claim as stated is false on the code.  With a warm
cache holding only `kidA`, a token whose `kid` is `kidB` is rejected with zero
cache invalidations and zero refetches — not with "exactly one
invalidate-and-refetch" before rejection. -/
theorem c3_counterexample :
    (get_current_user_from_jwt
      { cache := some { keys := [{ kid := "kidA" }] },
        net := FetchOutcome.success { keys := [{ kid := "kidB" }] },
        users := [],
        dbFail := none }
      { authorization := some "Bearer tok",
        headerParse := Except.ok (some "kidB"),
        decodeResult := Except.ok { cognito_username := some "u42", email := none } }).fetchCount
      = 0 ∧
    (get_current_user_from_jwt
      { cache := some { keys := [{ kid := "kidA" }] },
        net := FetchOutcome.success { keys := [{ kid := "kidB" }] },
        users := [],
        dbFail := none }
      { authorization := some "Bearer tok",
        headerParse := Except.ok (some "kidB"),
        decodeResult := Except.ok { cognito_username := some "u42", email := none } }).cache
      = some { keys := [{ kid := "kidA" }] } ∧
    (get_current_user_from_jwt
      { cache := some { keys := [{ kid := "kidA" }] },
        net := FetchOutcome.success { keys := [{ kid := "kidB" }] },
        users := [],
        dbFail := none }
      { authorization := some "Bearer tok",
        headerParse := Except.ok (some "kidB"),
        decodeResult := Except.ok { cognito_username := some "u42", email := none } }).result
      = Except.error
          { status := 401
            detail := "Authentication failed: (401, Public key not found for token)" } :=
  ⟨rfl, rfl, rfl⟩

/-- Witness for C3 amended: the general theorem applied to the concrete
unknown-`kid` request of the counterexample scenario. -/
theorem c3_unknown_kid_no_refetch_witness :
    (get_current_user_from_jwt
      { cache := some { keys := [{ kid := "kidA" }] },
        net := FetchOutcome.success { keys := [{ kid := "kidB" }] },
        users := [],
        dbFail := none }
      { authorization := some "Bearer tok",
        headerParse := Except.ok (some "kidB"),
        decodeResult := Except.ok { cognito_username := some "u42", email := none } }).result
      = Except.error
          { status := 401
            detail := "Authentication failed: (401, Public key not found for token)" } ∧
    (get_current_user_from_jwt
      { cache := some { keys := [{ kid := "kidA" }] },
        net := FetchOutcome.success { keys := [{ kid := "kidB" }] },
        users := [],
        dbFail := none }
      { authorization := some "Bearer tok",
        headerParse := Except.ok (some "kidB"),
        decodeResult := Except.ok { cognito_username := some "u42", email := none } }).fetchCount
      = 0 ∧
    (get_current_user_from_jwt
      { cache := some { keys := [{ kid := "kidA" }] },
        net := FetchOutcome.success { keys := [{ kid := "kidB" }] },
        users := [],
        dbFail := none }
      { authorization := some "Bearer tok",
        headerParse := Except.ok (some "kidB"),
        decodeResult := Except.ok { cognito_username := some "u42", email := none } }).cache
      = some { keys := [{ kid := "kidA" }] } ∧
    (get_current_user_from_jwt
      { cache := some { keys := [{ kid := "kidA" }] },
        net := FetchOutcome.success { keys := [{ kid := "kidB" }] },
        users := [],
        dbFail := none }
      { authorization := some "Bearer tok",
        headerParse := Except.ok (some "kidB"),
        decodeResult := Except.ok { cognito_username := some "u42", email := none } }).users
      = [] :=
  c3_unknown_kid_no_refetch _ _ "Bearer tok" "tok" "kidB"
    { keys := [{ kid := "kidA" }] } rfl rfl rfl rfl rfl

/-- C10: when a verified token carries no email claim, first-login
auto-provisioning still creates an account: the email is synthesized as
`<cognito_username>@unknown.local`, the namespace is `@<cognito_username>`
with no collision disambiguation, and `email_verified` is true (the created
row also gets `auth_provider = "cognito"` and is appended to the users
table). -/
theorem c10_missing_email_provisioning (w : JwtWorld) (req : JwtRequest)
    (auth tok kid uname : String) (ks : JWKS) (key : JwkKey)
    (claims : CognitoClaims)
    (hauth : req.authorization = some auth)
    (hsplit : pySplitWs auth = ["Bearer", tok])
    (hcache : w.cache = some ks)
    (hhdr : req.headerParse = Except.ok (some kid))
    (hfind : ks.keys.find? (fun k => k.kid == kid) = some key)
    (hdec : req.decodeResult = Except.ok claims)
    (huname : claims.cognito_username = some uname)
    (hne : uname ≠ "")
    (hemail : claims.email = none)
    (hdb : w.dbFail = none)
    (hnouser : UserRepository.get_by_id w.users uname = none)
    (hnoemail : UserRepository.get_by_email w.users (uname ++ "@unknown.local") = none) :
    (get_current_user_from_jwt w req).result =
      Except.ok
        { user_id := uname, email := uname ++ "@unknown.local",
          email_verified := true, name := none, namespace_ := "@" ++ uname,
          bio := none, github_username := none, auth_provider := "cognito" } ∧
    (get_current_user_from_jwt w req).users =
      w.users ++
        [{ user_id := uname, email := uname ++ "@unknown.local",
           email_verified := true, name := none, namespace_ := "@" ++ uname,
           bio := none, github_username := none, auth_provider := "cognito" }] := by
  have hbear : (pyLower "Bearer" == "bearer") = true := rfl
  refine ⟨?_, ?_⟩ <;>
    simp only [get_current_user_from_jwt, jwtTryBody, get_cognito_public_keys,
      hauth, hsplit, hcache, hhdr, hfind, hdec, huname, hdb, hbear, if_true,
      beq_iff_eq, hne, if_false, emailOrSynthesized, hemail,
      UserRepository.get_by_cognito_username, hnouser,
      UserRepository.create_from_cognito, hnoemail,
      UserRepository.create]

/-- Witness for C10: a verified token for `u42` with no email claim, empty
users table: the flow returns the freshly provisioned account with the
synthesized email, namespace `@u42` and `email_verified = true`. -/
theorem c10_missing_email_provisioning_witness :
    (get_current_user_from_jwt
      { cache := some { keys := [{ kid := "kidA" }] },
        net := FetchOutcome.failure "net down",
        users := [],
        dbFail := none }
      { authorization := some "Bearer tok",
        headerParse := Except.ok (some "kidA"),
        decodeResult := Except.ok { cognito_username := some "u42", email := none } }).result
      = Except.ok
          { user_id := "u42", email := "u42" ++ "@unknown.local",
            email_verified := true, name := none, namespace_ := "@" ++ "u42",
            bio := none, github_username := none, auth_provider := "cognito" } ∧
    (get_current_user_from_jwt
      { cache := some { keys := [{ kid := "kidA" }] },
        net := FetchOutcome.failure "net down",
        users := [],
        dbFail := none }
      { authorization := some "Bearer tok",
        headerParse := Except.ok (some "kidA"),
        decodeResult := Except.ok { cognito_username := some "u42", email := none } }).users
      = [] ++
          [{ user_id := "u42", email := "u42" ++ "@unknown.local",
             email_verified := true, name := none, namespace_ := "@" ++ "u42",
             bio := none, github_username := none, auth_provider := "cognito" }] :=
  c10_missing_email_provisioning _ _ "Bearer tok" "tok" "kidA" "u42"
    { keys := [{ kid := "kidA" }] } { kid := "kidA" }
    { cognito_username := some "u42", email := none }
    rfl rfl rfl rfl rfl rfl rfl (by decide) rfl rfl rfl rfl
